import Mathlib

/-!
Verification development for the OpSimSummary compatibility layer
(`opsimsummary/opsim_out.py`).

The pandas tables are embedded as lists of records.  A summary row carries
the canonical column set that the code reads and writes after the
version-dependent column rename (the rename itself is a bijection on column
names, so rows are represented directly in canonical form).  The pandas row
index bookkeeping (`reset_index`, `set_index`, `del df['index']`) is not
modelled: rows are plain records and `set_index('obsHistID')` performs no
uniqueness check in pandas.

Python dicts are embedded as association lists with unique keys
(`dictOfPairs` collapses duplicate keys with last-write-wins, exactly as
`dict(...)` does); `dictGet` is `d[k]` returning `none` where python raises
`KeyError`.  Fallible code returns `Except String`.  Floating point numbers
in the tables are embedded as rationals; the canonical angle columns
`_ra`/`_dec` produced by unit conversion are real numbers, since the
degree-to-radian conversion multiplies by pi / 180.
-/

namespace OpSim

/-! ## Python string containment (`needle in hay`) -/

/-- Does the character list begin with the given pattern? -/
def charsStartWith : List Char → List Char → Bool
  | _, [] => true
  | [], _ :: _ => false
  | c :: cs, d :: ds => c == d && charsStartWith cs ds

/-- Does the character list contain the pattern as a contiguous run? -/
def charsContain : List Char → List Char → Bool
  | [], needle => needle.isEmpty
  | c :: cs, needle => charsStartWith (c :: cs) needle || charsContain cs needle

/-- Python `needle in hay` on strings: substring containment. -/
def pyIn (needle hay : String) : Bool :=
  charsContain hay.toList needle.toList

/-- Python `str.lower()` on one character (ASCII range, which covers every
subset name the code handles). -/
def charLower (c : Char) : Char :=
  if 'A' ≤ c ∧ c ≤ 'Z' then Char.ofNat (c.toNat + 32) else c

/-- Python `str.lower()`; defined by structural recursion over the
character list so that concrete calls reduce. -/
def strLower (s : String) : String :=
  String.mk (s.toList.map charLower)

/-! ## Python dict over string keys and integer values -/

/-- Insert with overwrite, keeping the original key position
(python dict assignment semantics). -/
def dictInsert : List (String × Int) → String → Int → List (String × Int)
  | [], k, v => [(k, v)]
  | kv :: rest, k, v =>
    if kv.1 = k then (k, v) :: rest else kv :: dictInsert rest k v

/-- `dict(pairs)`: build a dict from pairs, later bindings overwriting
earlier ones. -/
def dictOfPairs (ps : List (String × Int)) : List (String × Int) :=
  ps.foldl (fun d kv => dictInsert d kv.1 kv.2) []

/-- `d[k]` as an `Option`: `none` models a python `KeyError`.  First-match
lookup — dict key lists are unique, every dict being either built by
`dictOfPairs` or supplied as a dict by the caller. -/
def dictGet : List (String × Int) → String → Option Int
  | [], _ => none
  | kv :: rest, k => if kv.1 = k then some kv.2 else dictGet rest k

/-! ## Data model -/

/-- One row of the Proposal table: raw proposal name and numeric ID. -/
structure ProposalRow where
  name : String
  id : Int
deriving DecidableEq, Repr

/-- The Proposal table.  `nameCol`/`idCol` record the physical column names
of the underlying DataFrame (they differ across OpSim versions:
`propConf`/`propID` for lsstv3, `propName`/`propId` for sstf and lsstv4);
attribute/key access on a missing column raises in pandas, which the
embedding reproduces by comparing against these fields. -/
structure ProposalTable where
  nameCol : String
  idCol : String
  rows : List ProposalRow
deriving DecidableEq, Repr

/-- One row of the Summary table after the canonical column rename of
`fromOpSimDB`.  For lsstv3 the table also carries the undithered field
center (`fieldRA`/`fieldDec`), used by the dither-zeroing step. -/
structure SummaryRow where
  obsHistID : Int
  propID : Int
  ditheredRA : ℚ
  ditheredDec : ℚ
  fieldRA : ℚ
  fieldDec : ℚ
  expMJD : ℚ
  FWHMeff : ℚ
  filtSkyBrightness : ℚ
deriving DecidableEq, Repr

/-- The version-dependent variable set returned by
`OpSimOutput.get_opsimVariablesForVersion`. -/
structure OpsimVars where
  summaryTableName : String
  obsHistID : String
  propName : String
  propIDName : String
  propIDNameInSummary : String
  ops_wfdname : String
  ops_ddfname : String
  expMJD : String
  FWHMeff : String
  pointingRA : String
  pointingDec : String
  filtSkyBrightness : String
  angleUnits : String
deriving DecidableEq, Repr

/-- `OpSimOutput.get_opsimVariablesForVersion`: static per-version lookup;
unknown version tags raise `NotImplementedError`. -/
def get_opsimVariablesForVersion (opsimversion : String) : Except String OpsimVars :=
  if opsimversion = "lsstv3" then
    .ok { summaryTableName := "Summary", obsHistID := "obsHistID",
          propName := "propConf", propIDName := "propID",
          propIDNameInSummary := "propID",
          ops_wfdname := "conf/survey/Universal-18-0824B.conf",
          ops_ddfname := "conf/survey/DDcosmology1.conf",
          expMJD := "expMJD", FWHMeff := "FWHMeff",
          pointingRA := "ditheredRA", pointingDec := "pointingDec",
          filtSkyBrightness := "filtSkyBrightness", angleUnits := "radians" }
  else if opsimversion = "sstf" then
    .ok { summaryTableName := "SummaryAllProps", obsHistID := "observationId",
          propName := "propName", propIDName := "propId",
          propIDNameInSummary := "proposalId",
          ops_wfdname := "WideFastDeep", ops_ddfname := "Deep Drilling",
          expMJD := "observationStartMJD", FWHMeff := "seeingFwhmEff",
          pointingRA := "fieldRA", pointingDec := "fieldDec",
          filtSkyBrightness := "skyBrightness", angleUnits := "degrees" }
  else if opsimversion = "lsstv4" then
    .ok { summaryTableName := "SummaryAllProps", obsHistID := "observationId",
          propName := "propName", propIDName := "propId",
          propIDNameInSummary := "proposalId",
          ops_wfdname := "WideFastDeep", ops_ddfname := "DeepDrillingCosmology1",
          expMJD := "observationStartMJD", FWHMeff := "seeingFwhmEff",
          pointingRA := "fieldRA", pointingDec := "fieldDec",
          filtSkyBrightness := "skyBrightness", angleUnits := "degrees" }
  else
    .error "NotImplementedError: not implemented for this opsimversion"

/-- `OpSimOutput.get_allowed_subsets`. -/
def get_allowed_subsets : List String :=
  ["_all", "ddf", "wfd", "combined", "unique_all"]

/-! ## ProposalResolver: `OpSimOutput.get_propIDDict` -/

/-- The per-version literals used by `get_propIDDict`:
(propName column, propID column, wfd literal, ddf literal). -/
def propIDDictNames (opsimversion : String) :
    Option (String × String × String × String) :=
  if opsimversion = "lsstv3" then
    some ("propConf", "propID",
          "conf/survey/Universal-18-0824B.conf", "conf/survey/DDcosmology1.conf")
  else if opsimversion = "sstf" then
    some ("propName", "propId", "WideFastDeep", "Deep Drilling")
  else if opsimversion = "lsstv4" then
    some ("propName", "propId", "WideFastDeep", "DeepDrillingCosmology1")
  else
    none

/-- The in-place relabelling of one proposal name: wfd literal is tested
first, then ddf; non-matching names are left unchanged. -/
def relabelName (wfdLit ddfLit name : String) : String :=
  if pyIn wfdLit name then "wfd"
  else if pyIn ddfLit name then "ddf"
  else name

/-- `OpSimOutput.get_propIDDict`: relabel the proposal names in place, then
`dict(df.set_index(propName)[propIDName])` — a dict from (relabelled name,
id) pairs in which later rows overwrite earlier ones.  Accessing the
version's columns on a table that does not have them raises (`KeyError`). -/
def get_propIDDict (t : ProposalTable) (opsimversion : String) :
    Except String (List (String × Int)) :=
  match propIDDictNames opsimversion with
  | none => .error "NotImplementedError: not implemented for this opsimversion"
  | some (propName, propIDName, wfdLit, ddfLit) =>
    if t.nameCol = propName ∧ t.idCol = propIDName then
      .ok (dictOfPairs (t.rows.map (fun r => (relabelName wfdLit ddfLit r.name, r.id))))
    else
      .error "KeyError: proposal table does not have the version columns"

/-! ## SubsetSelector: `OpSimOutput.propIDVals` -/

/-- `OpSimOutput.propIDVals`.  The `_all`/`unique_all` branch is
`proposalTable.propID.values`: pandas attribute access on the literal
column name `propID`, which raises `AttributeError` when the table's ID
column is named differently (as it is for sstf and lsstv4 tables), and the
branch returns python `None` when no table is given. -/
def propIDVals (subset : Option String) (propIDDict : List (String × Int))
    (proposalTable : Option ProposalTable) : Except String (Option (List Int)) :=
  match subset with
  | none => .error "ValueError: subset arg in propIDVals cannot be None"
  | some s =>
    if strLower s = "ddf" ∨ strLower s = "wfd" then
      match dictGet propIDDict (strLower s) with
      | some i => .ok (some [i])
      | none => .error "KeyError: role absent from propIDDict"
    else if strLower s = "combined" then
      match dictGet propIDDict "ddf" with
      | none => .error "KeyError: role absent from propIDDict"
      | some i =>
        match dictGet propIDDict "wfd" with
        | none => .error "KeyError: role absent from propIDDict"
        | some j => .ok (some [i, j])
    else if strLower s = "_all" ∨ strLower s = "unique_all" then
      match proposalTable with
      | some t =>
        if t.idCol = "propID" then .ok (some (t.rows.map ProposalRow.id))
        else .error "AttributeError: DataFrame has no attribute propID"
      | none => .ok none
    else
      .error "NotImplementedError: value of subset Not recognized"

/-! ## `OpSimOutput._overrideSubsetPropID` -/

/-- Models the value of `np.asarray(xs).sort()`: `ndarray.sort` sorts in
place and returns python `None`, whatever the array was. -/
def npSortResult (_xs : Option (List Int)) : Option (List Int) :=
  none

/-- `OpSimOutput._overrideSubsetPropID`.  When explicit `propIDs` are given
they are returned; the guard comparing them with the subset-derived
`_propIDs` compares the return values of two in-place sorts, both `None`,
so the `raise Warning` branch can never fire. -/
def overrideSubsetPropID (propIDs uPropIDs : Option (List Int)) :
    Except String (Option (List Int)) :=
  match propIDs with
  | none => .ok uPropIDs
  | some ps =>
    if npSortResult (some ps) ≠ npSortResult uPropIDs then
      .error "Warning: argument propIDs and _propIDs do not match"
    else
      .ok (some ps)

/-! ## Deduplicator: `OpSimOutput.dropDuplicates` -/

/-- Minimum of a list of integers (`df.propID.min()`); the empty-table
value is irrelevant because every mask over an empty table is empty. -/
def minList : List Int → Int
  | [] => 0
  | x :: xs => xs.foldl min x

/-- The temporary propID remap: both masks are computed on the original
values before either assignment, so a row matching both `wfdID` and
`ddfID` ends with the wfd replacement (the later assignment). -/
def remapRow (ddfID wfdID ddfP wfdP : Int) (r : SummaryRow) : SummaryRow :=
  if r.propID = wfdID then { r with propID := wfdP }
  else if r.propID = ddfID then { r with propID := ddfP }
  else r

/-- Restore the original propIDs after the dedup pass; the two transformed
values `ddfP`, `wfdP` are distinct, so the order of the two assignments is
immaterial. -/
def restoreRow (ddfID wfdID ddfP wfdP : Int) (r : SummaryRow) : SummaryRow :=
  if r.propID = wfdP then { r with propID := wfdID }
  else if r.propID = ddfP then { r with propID := ddfID }
  else r

/-- `df.drop_duplicates(subset='obsHistID', keep='first')`: keep the first
occurrence of each `obsHistID` in row order.  `seen` accumulates the IDs
already kept. -/
def dedupFirst : List SummaryRow → List Int → List SummaryRow
  | [], _ => []
  | r :: rs, seen =>
    if r.obsHistID ∈ seen then dedupFirst rs seen
    else r :: dedupFirst rs (r.obsHistID :: seen)

/-- Ascending insertion by `expMJD`. -/
def insertByMJD (r : SummaryRow) : List SummaryRow → List SummaryRow
  | [] => [r]
  | x :: xs => if r.expMJD < x.expMJD then r :: x :: xs else x :: insertByMJD r xs

/-- `df.sort_values(by='expMJD')`: ascending sort on the exposure
timestamp (the order among equal timestamps is not specified by pandas'
default quicksort; the embedding uses a deterministic insertion sort). -/
def sortByMJD : List SummaryRow → List SummaryRow
  | [] => []
  | r :: rs => insertByMJD r (sortByMJD rs)

/-- `OpSimOutput.dropDuplicates`.  For `sstf` the input is returned
unchanged.  Otherwise the `ddf` and `wfd` entries of `propIDDict` are both
read unconditionally (python `KeyError` when absent), the propIDs of those
two roles are temporarily remapped below the table minimum, duplicates by
`obsHistID` are dropped keeping the first occurrence in row order, the
propIDs are restored, and the result is sorted by `expMJD`. -/
def dropDuplicates (df : List SummaryRow) (propIDDict : List (String × Int))
    (opsimversion : String) : Except String (List SummaryRow) :=
  if opsimversion = "sstf" then .ok df
  else
    match dictGet propIDDict "ddf" with
    | none => .error "KeyError: ddf"
    | some ddfID =>
      match dictGet propIDDict "wfd" with
      | none => .error "KeyError: wfd"
      | some wfdID =>
        let minPropID := minList (df.map SummaryRow.propID)
        let ddfP := minPropID - 1
        let wfdP := minPropID - 2
        let remapped := df.map (remapRow ddfID wfdID ddfP wfdP)
        let deduped := dedupFirst remapped []
        let restored := deduped.map (restoreRow ddfID wfdID ddfP wfdP)
        .ok (sortByMJD restored)

/-! ## PointingCatalog: `OpSimOutput.__init__` and `fromOpSimDB` -/

/-- A summary row together with the canonical `_ra`/`_dec` columns added by
`__init__` (radians, real-valued). -/
structure OutRow where
  base : SummaryRow
  raRad : ℝ
  decRad : ℝ

/-- The constructed `OpSimOutput` object.  The two boolean fields record
the observable side conditions of `__init__`: the effective value of
`zeroDDFDithers` after the version check, and whether the downgrade notice
was printed. -/
structure OpSimOutput where
  opsimversion : String
  propIDDict : Option (List (String × Int))
  proposalTable : Option ProposalTable
  summary : List OutRow
  subset : Option String
  propIDs : Option (List Int)
  ddfDithersZeroed : Bool
  zeroDowngradeNotice : Bool

/-- `np.radians`: degrees to radians. -/
noncomputable def np_radians (x : ℚ) : ℝ :=
  (x : ℝ) * Real.pi / 180

/-- Lines 70-77 of `__init__`: compute the canonical `_ra`/`_dec` pair for
one row from the declared angle unit; an unrecognized unit raises
`ValueError`. -/
noncomputable def canonicalAngles (angleUnits : String) (ra dec : ℚ) :
    Except String (ℝ × ℝ) :=
  if angleUnits = "degrees" then .ok (np_radians ra, np_radians dec)
  else if angleUnits = "radians" then .ok ((ra : ℝ), (dec : ℝ))
  else .error "ValueError: angle unit of ra and dec Columns not recognized"

/-- Apply the angle conversion to every row. -/
noncomputable def convertRows (angleUnits : String) :
    List SummaryRow → Except String (List OutRow)
  | [] => .ok []
  | r :: rs =>
    match canonicalAngles angleUnits r.ditheredRA r.ditheredDec with
    | .error e => .error e
    | .ok ab =>
      match convertRows angleUnits rs with
      | .error e => .error e
      | .ok rest => .ok (⟨r, ab.1, ab.2⟩ :: rest)

/-- Lines 60-67 of `__init__`: when the effective flag is set, overwrite
the dithered coordinates of the rows whose propID is `propIDDict['ddf']`
with the field-center coordinates (python `TypeError` when `propIDDict` is
`None`, `KeyError` when the `ddf` key is absent). -/
def zeroDDFStep (summary : List SummaryRow)
    (propIDDict : Option (List (String × Int))) (z : Bool) :
    Except String (List SummaryRow) :=
  if z then
    match propIDDict with
    | none => .error "TypeError: propIDDict is None"
    | some d =>
      match dictGet d "ddf" with
      | none => .error "KeyError: ddf"
      | some ddfPropID =>
        .ok (summary.map (fun r =>
          if r.propID = ddfPropID then
            { r with ditheredRA := r.fieldRA, ditheredDec := r.fieldDec }
          else r))
  else .ok summary

/-- `OpSimOutput.__init__`.  For versions `sstf` and `lsstv4` the
`zeroDDFDithers` request is forced to `False` with a printed notice; the
effective flag drives the dither-zeroing step; then the canonical
`_ra`/`_dec` columns are computed from the version's angle unit. -/
noncomputable def opSimInit (summary : List SummaryRow)
    (propIDDict : Option (List (String × Int)))
    (proposalTable : Option ProposalTable) (subset : Option String)
    (propIDs : Option (List Int)) (zeroDDFDithers : Bool)
    (opsimversion : String) : Except String OpSimOutput :=
  let forced : Bool := opsimversion = "sstf" ∨ opsimversion = "lsstv4"
  let z : Bool := if forced then false else zeroDDFDithers
  match zeroDDFStep summary propIDDict z with
  | .error e => .error e
  | .ok summary1 =>
    match get_opsimVariablesForVersion opsimversion with
    | .error e => .error e
    | .ok vars =>
      match convertRows vars.angleUnits summary1 with
      | .error e => .error e
      | .ok outRows =>
        .ok { opsimversion := opsimversion, propIDDict := propIDDict,
              proposalTable := proposalTable, summary := outRows,
              subset := subset, propIDs := propIDs,
              ddfDithersZeroed := z, zeroDowngradeNotice := forced }

/-- The record-level part of `OpSimOutput.fromOpSimDB`, up to and including
the dedup step: version check, subset check, role-map construction, subset
resolution, explicit-ID override, the `WHERE propID IN (...)` read (a
filter over the summary table; for `_all`/`unique_all` the whole table is
read), and `dropDuplicates` for every subset except `_all`.  Returns the
surviving rows and the role map. -/
def fromOpSimDBRecords (summaryTable : List SummaryRow)
    (proposalTable : ProposalTable) (subset : String)
    (propIDs : Option (List Int)) (opsimversion : String) :
    Except String (List SummaryRow × List (String × Int)) :=
  match get_opsimVariablesForVersion opsimversion with
  | .error e => .error e
  | .ok _ =>
    let subsetL := strLower subset
    if subsetL ∈ get_allowed_subsets then
      match get_propIDDict proposalTable opsimversion with
      | .error e => .error e
      | .ok propDict =>
        match propIDVals (some subsetL) propDict (some proposalTable) with
        | .error e => .error e
        | .ok uPropIDs =>
          match overrideSubsetPropID propIDs uPropIDs with
          | .error e => .error e
          | .ok propIDs2 =>
            match (if subsetL = "_all" ∨ subsetL = "unique_all" then
                     .ok summaryTable
                   else
                     match propIDs2 with
                     | none => .error "TypeError: propIDs is None"
                     | some pids =>
                       .ok (summaryTable.filter (fun r => r.propID ∈ pids))
                   : Except String (List SummaryRow)) with
            | .error e => .error e
            | .ok summary0 =>
              match (if subsetL ≠ "_all" then
                       dropDuplicates summary0 propDict opsimversion
                     else .ok summary0) with
              | .error e => .error e
              | .ok summary1 => .ok (summary1, propDict)
    else
      .error "NotImplementedError: subset not implemented"

/-- `OpSimOutput.fromOpSimDB` with the sqlite engine replaced by the two
tables it reads: the record pipeline above followed by `__init__` (the
pandas row-index bookkeeping at lines 185-187 of the source is not
modelled; `set_index` performs no uniqueness check). -/
noncomputable def fromOpSimDB (summaryTable : List SummaryRow)
    (proposalTable : ProposalTable) (subset : String)
    (propIDs : Option (List Int)) (zeroDDFDithers : Bool)
    (opsimversion : String) : Except String OpSimOutput :=
  match fromOpSimDBRecords summaryTable proposalTable subset propIDs opsimversion with
  | .error e => .error e
  | .ok (summary1, propDict) =>
    opSimInit summary1 (some propDict) (some proposalTable)
      (some (strLower subset)) none zeroDDFDithers opsimversion

/-! ## HDF persistence: `writeOpSimHDF` and `fromOpSimHDF` -/

/-- The persisted form: the two keys written by `writeOpSimHDF`. -/
structure HDFFile where
  summaryKey : List OutRow
  proposalKey : ProposalTable

/-- `OpSimOutput.writeOpSimHDF`: rejected with `ValueError` unless the
subset is `_all`; otherwise the summary and proposal tables are written
under the keys `Summary` and `Proposal` (an absent proposal table would
raise on the `to_hdf` attribute access). -/
def writeOpSimHDF (o : OpSimOutput) : Except String HDFFile :=
  if o.subset ≠ some "_all" then
    .error "ValueError: Should be Done only for self.subset == _all"
  else
    match o.proposalTable with
    | none => .error "AttributeError: NoneType has no attribute to_hdf"
    | some pt => .ok { summaryKey := o.summary, proposalKey := pt }

/-- `OpSimOutput.fromOpSimHDF`: its first statement is
`raise NotImplementedError('Not quite working at this moment')`, so every
call fails; the reconstruction code below that line is unreachable. -/
def fromOpSimHDF (_hdf : HDFFile) (_subset : String)
    (_propIDs : Option (List Int)) : Except String OpSimOutput :=
  .error "NotImplementedError: Not quite working at this moment"

/-! ## Observers -/

/-- The summary rows of a construction result (empty on failure). -/
noncomputable def initSummary (e : Except String OpSimOutput) : List OutRow :=
  match e with
  | .ok o => o.summary
  | .error _ => []

/-- The pointing-ID column of a construction result (empty on failure). -/
noncomputable def resultIDs (e : Except String OpSimOutput) : List Int :=
  match e with
  | .ok o => o.summary.map (fun r => r.base.obsHistID)
  | .error _ => []

/-- The effective `zeroDDFDithers` flag of a construction result. -/
noncomputable def initDithersZeroed (e : Except String OpSimOutput) : Option Bool :=
  match e with
  | .ok o => some o.ddfDithersZeroed
  | .error _ => none

/-- Whether the construction printed the downgrade notice. -/
noncomputable def initNotice (e : Except String OpSimOutput) : Option Bool :=
  match e with
  | .ok o => some o.zeroDowngradeNotice
  | .error _ => none

/-- The angle unit declared by a version's variable set. -/
def varsAngleUnits (opsimversion : String) : Option String :=
  match get_opsimVariablesForVersion opsimversion with
  | .ok v => some v.angleUnits
  | .error _ => none

/-! ## Dictionary lemmas -/

/-- The value of the last binding of `k` in a pair list: the binding python
`dict(pairs)` retains. -/
def lastVal : List (String × Int) → String → Option Int
  | [], _ => none
  | kv :: rest, k =>
    match lastVal rest k with
    | some v => some v
    | none => if kv.1 = k then some kv.2 else none

theorem dictGet_dictInsert_self (d : List (String × Int)) (k : String) (v : Int) :
    dictGet (dictInsert d k v) k = some v := by
  induction d with
  | nil => simp [dictInsert, dictGet]
  | cons kv rest ih =>
    by_cases h : kv.1 = k <;> simp [dictInsert, h, dictGet, ih]

theorem dictGet_dictInsert_ne (d : List (String × Int)) (k' k : String) (v : Int)
    (h : k' ≠ k) : dictGet (dictInsert d k' v) k = dictGet d k := by
  induction d with
  | nil => simp [dictInsert, dictGet, h]
  | cons kv rest ih =>
    by_cases h2 : kv.1 = k' <;> simp [dictInsert, h2, dictGet, h, ih]

theorem dictGet_foldl_dictInsert (ps : List (String × Int)) :
    ∀ (d : List (String × Int)) (k : String),
      dictGet (ps.foldl (fun d kv => dictInsert d kv.1 kv.2) d) k =
        match lastVal ps k with
        | some v => some v
        | none => dictGet d k := by
  induction ps with
  | nil => intro d k; simp [lastVal]
  | cons kv rest ih =>
    intro d k
    rw [List.foldl_cons, ih (dictInsert d kv.1 kv.2) k]
    cases hrest : lastVal rest k with
    | some v => simp [lastVal, hrest]
    | none =>
      by_cases h : kv.1 = k
      · subst h
        simp [lastVal, hrest, dictGet_dictInsert_self]
      · simp [lastVal, hrest, h, dictGet_dictInsert_ne d kv.1 k kv.2 h]

/-- Lookup in `dict(pairs)` returns the value of the last binding. -/
theorem dictGet_dictOfPairs (ps : List (String × Int)) (k : String) :
    dictGet (dictOfPairs ps) k = lastVal ps k := by
  have h := dictGet_foldl_dictInsert ps [] k
  cases hlv : lastVal ps k <;> simp_all [dictOfPairs, dictGet]

/-- A key has no binding in `dict(pairs)` exactly when no pair carries it. -/
theorem lastVal_eq_none_iff (ps : List (String × Int)) (k : String) :
    lastVal ps k = none ↔ ∀ kv ∈ ps, kv.1 ≠ k := by
  induction ps with
  | nil => simp [lastVal]
  | cons kv rest ih =>
    cases hrest : lastVal rest k with
    | some v =>
      simp only [lastVal, hrest]
      constructor
      · intro h; exact (Option.noConfusion h)
      · intro h
        have hall : ∀ kv' ∈ rest, kv'.1 ≠ k :=
          fun x hx => h x (List.mem_cons_of_mem kv hx)
        have hnone := ih.mpr hall
        rw [hnone] at hrest
        exact (Option.noConfusion hrest)
    | none =>
      simp only [lastVal, hrest]
      by_cases h : kv.1 = k
      · simp only [if_pos h]
        constructor
        · intro hh; exact (Option.noConfusion hh)
        · intro hall; exact absurd h (hall kv (List.mem_cons_self kv rest))
      · simp only [if_neg h]
        constructor
        · intro _ x hx
          rcases List.mem_cons.mp hx with hx1 | hx2
          · subst hx1; exact h
          · exact ih.mp hrest x hx2
        · intro _; trivial

/-! ## Deduplication lemmas -/

/-- The first-occurrence dedup produces pairwise distinct `obsHistID`
values, none of them in the already-seen accumulator. -/
theorem dedupFirst_spec (l : List SummaryRow) : ∀ seen : List Int,
    ((dedupFirst l seen).map SummaryRow.obsHistID).Nodup ∧
      ∀ r ∈ dedupFirst l seen, r.obsHistID ∉ seen := by
  induction l with
  | nil => intro seen; simp [dedupFirst]
  | cons r rs ih =>
    intro seen
    by_cases h : r.obsHistID ∈ seen
    · simpa [dedupFirst, h] using ih seen
    · have ih2 := ih (r.obsHistID :: seen)
      simp only [dedupFirst, if_neg h]
      constructor
      · rw [List.map_cons, List.nodup_cons]
        refine ⟨?_, ih2.1⟩
        intro hmem
        rcases List.mem_map.mp hmem with ⟨x, hx, hid⟩
        exact (ih2.2 x hx) (hid ▸ List.mem_cons_self _ _)
      · intro x hx
        rcases List.mem_cons.mp hx with hx1 | hx2
        · subst hx1; exact h
        · intro hxseen
          exact (ih2.2 x hx2) (List.mem_cons_of_mem _ hxseen)

theorem insertByMJD_perm (r : SummaryRow) (l : List SummaryRow) :
    List.Perm (insertByMJD r l) (r :: l) := by
  induction l with
  | nil => exact List.Perm.refl _
  | cons x xs ih =>
    by_cases h : r.expMJD < x.expMJD
    · simp [insertByMJD, h]
    · simp only [insertByMJD, if_neg h]
      exact (ih.cons x).trans (List.Perm.swap r x xs)

theorem sortByMJD_perm (l : List SummaryRow) : List.Perm (sortByMJD l) l := by
  induction l with
  | nil => exact List.Perm.refl _
  | cons r rs ih => exact (insertByMJD_perm r (sortByMJD rs)).trans (ih.cons r)

theorem restoreRow_obsHistID (a b c d : Int) (r : SummaryRow) :
    (restoreRow a b c d r).obsHistID = r.obsHistID := by
  unfold restoreRow; split_ifs <;> rfl

/-- For every version other than `sstf`, a successful dedup returns rows
with pairwise distinct pointing IDs. -/
theorem dropDuplicates_ok_nodup (df : List SummaryRow)
    (d : List (String × Int)) (v : String) (hv : v ≠ "sstf")
    (out : List SummaryRow) (h : dropDuplicates df d v = .ok out) :
    (out.map SummaryRow.obsHistID).Nodup := by
  unfold dropDuplicates at h
  rw [if_neg hv] at h
  cases hd : dictGet d "ddf" with
  | none => rw [hd] at h; exact (Except.noConfusion h)
  | some ddfID =>
    rw [hd] at h
    cases hw : dictGet d "wfd" with
    | none => rw [hw] at h; exact (Except.noConfusion h)
    | some wfdID =>
      rw [hw] at h
      simp only [Except.ok.injEq] at h
      subst h
      set mP := minList (df.map SummaryRow.propID) with hmP
      set remapped := df.map (remapRow ddfID wfdID (mP - 1) (mP - 2)) with hre
      set deduped := dedupFirst remapped [] with hde
      set restored := deduped.map (restoreRow ddfID wfdID (mP - 1) (mP - 2)) with hrs
      have hperm : List.Perm ((sortByMJD restored).map SummaryRow.obsHistID)
          (restored.map SummaryRow.obsHistID) :=
        (sortByMJD_perm restored).map _
      rw [List.Perm.nodup_iff hperm, hrs, List.map_map]
      have heq : (SummaryRow.obsHistID ∘ restoreRow ddfID wfdID (mP - 1) (mP - 2)) =
          SummaryRow.obsHistID := by
        funext r; exact restoreRow_obsHistID _ _ _ _ r
      rw [heq]
      exact (dedupFirst_spec remapped []).1

/-! ## Conversion and construction lemmas -/

theorem convertRows_ok_base (u : String) (l : List SummaryRow) :
    ∀ ys : List OutRow, convertRows u l = .ok ys → ys.map OutRow.base = l := by
  induction l with
  | nil =>
    intro ys h
    simp only [convertRows, Except.ok.injEq] at h
    subst h; rfl
  | cons r rs ih =>
    intro ys h
    unfold convertRows at h
    cases hc : canonicalAngles u r.ditheredRA r.ditheredDec with
    | error e => rw [hc] at h; exact (Except.noConfusion h)
    | ok ab =>
      rw [hc] at h
      cases hrest : convertRows u rs with
      | error e => rw [hrest] at h; exact (Except.noConfusion h)
      | ok rest =>
        rw [hrest] at h
        simp only [Except.ok.injEq] at h
        subst h
        simp [ih rest hrest]

theorem convertRows_radians (l : List SummaryRow) :
    convertRows "radians" l =
      .ok (l.map (fun r => ⟨r, (r.ditheredRA : ℝ), (r.ditheredDec : ℝ)⟩)) := by
  induction l with
  | nil => rfl
  | cons r rs ih =>
    unfold convertRows canonicalAngles
    rw [if_neg (by decide), if_pos rfl, ih]
    rfl

theorem convertRows_degrees (l : List SummaryRow) :
    convertRows "degrees" l =
      .ok (l.map (fun r => ⟨r, np_radians r.ditheredRA, np_radians r.ditheredDec⟩)) := by
  induction l with
  | nil => rfl
  | cons r rs ih =>
    unfold convertRows canonicalAngles
    rw [if_pos rfl, ih]
    rfl

/-- The dither-zeroing step never changes the pointing-ID column. -/
theorem zeroDDFStep_ok_ids (s : List SummaryRow)
    (d : Option (List (String × Int))) (z : Bool) (s1 : List SummaryRow)
    (h : zeroDDFStep s d z = .ok s1) :
    s1.map SummaryRow.obsHistID = s.map SummaryRow.obsHistID := by
  unfold zeroDDFStep at h
  split at h
  · split at h
    · exact (Except.noConfusion h)
    · split at h
      · exact (Except.noConfusion h)
      · simp only [Except.ok.injEq] at h
        subst h
        rw [List.map_map]
        refine List.map_congr_left ?_
        intro r _
        simp only [Function.comp]
        split_ifs <;> rfl
  · simp only [Except.ok.injEq] at h
    subst h; rfl

/-- A successful construction keeps the pointing IDs of its input rows,
in order. -/
theorem opSimInit_ok_ids (s : List SummaryRow)
    (d : Option (List (String × Int))) (t : Option ProposalTable)
    (sub : Option String) (p : Option (List Int)) (z : Bool) (v : String)
    (out : OpSimOutput) (h : opSimInit s d t sub p z v = .ok out) :
    out.summary.map (fun r => r.base.obsHistID) = s.map SummaryRow.obsHistID := by
  simp only [opSimInit] at h
  split at h
  · exact (Except.noConfusion h)
  next summary1 heq1 =>
    split at h
    · exact (Except.noConfusion h)
    next vars hvars =>
      split at h
      · exact (Except.noConfusion h)
      next outRows hconv =>
        simp only [Except.ok.injEq] at h
        subst h
        have hbase := convertRows_ok_base vars.angleUnits summary1 outRows hconv
        have hzero := zeroDDFStep_ok_ids s d _ summary1 heq1
        calc outRows.map (fun r => r.base.obsHistID)
            = (outRows.map OutRow.base).map SummaryRow.obsHistID := by
              rw [List.map_map]; rfl
          _ = summary1.map SummaryRow.obsHistID := by rw [hbase]
          _ = s.map SummaryRow.obsHistID := hzero

/-- A successful construction factors through the record pipeline and
`__init__`. -/
theorem fromOpSimDB_ok_records (st : List SummaryRow) (pt : ProposalTable)
    (subset : String) (pids : Option (List Int)) (z : Bool) (v : String)
    (out : OpSimOutput) (h : fromOpSimDB st pt subset pids z v = .ok out) :
    ∃ s1 d, fromOpSimDBRecords st pt subset pids v = .ok (s1, d) ∧
      opSimInit s1 (some d) (some pt) (some (strLower subset)) none z v = .ok out := by
  unfold fromOpSimDB at h
  split at h
  · exact (Except.noConfusion h)
  next s1 d heq =>
    exact ⟨s1, d, heq, h⟩

/-- For every subset other than `_all`, the rows produced by the record
pipeline are the output of a `dropDuplicates` call on the restricted
table. -/
theorem fromOpSimDBRecords_ok_dedup (st : List SummaryRow) (pt : ProposalTable)
    (subset : String) (pids : Option (List Int)) (v : String)
    (s1 : List SummaryRow) (d : List (String × Int))
    (hsub : strLower subset ≠ "_all")
    (h : fromOpSimDBRecords st pt subset pids v = .ok (s1, d)) :
    ∃ s0, dropDuplicates s0 d v = .ok s1 := by
  simp only [fromOpSimDBRecords] at h
  split at h
  · exact (Except.noConfusion h)
  · split at h
    · split at h
      · exact (Except.noConfusion h)
      · split at h
        · exact (Except.noConfusion h)
        · split at h
          · exact (Except.noConfusion h)
          · split at h
            · exact (Except.noConfusion h)
            next summary0 heq0 =>
              split at h
              · exact (Except.noConfusion h)
              next summary1 heq1 =>
                simp only [Except.ok.injEq, Prod.mk.injEq] at h
                obtain ⟨h1, h2⟩ := h
                subst h1; subst h2
                exact ⟨summary0, heq1⟩
    · exact (Except.noConfusion h)

/-! ## Concrete fixtures used by the claim theorems -/

/-- A deep-drilling pointing of ID 100, logged first (lsstv3 role map
below assigns propID 2 to ddf). -/
def rowDDF : SummaryRow := ⟨100, 2, 11, 12, 13, 14, 1, 5, 6⟩

/-- A wide-fast-deep pointing of the same ID 100, with a later exposure
timestamp. -/
def rowWFD : SummaryRow := ⟨100, 1, 21, 22, 23, 24, 2, 5, 6⟩

/-- Role map: wfd is proposal 1, ddf is proposal 2. -/
def dictC1 : List (String × Int) := [("ddf", 2), ("wfd", 1)]

/-! ## Claim theorems -/

/-- Claim C1: the spec says that for a pointing ID logged once under
wide-fast-deep and once under deep-drilling, dedup keeps exactly the
wide-fast-deep record.  Evaluating `dropDuplicates` at such a table shows
the code instead keeps whichever record comes FIRST in row order: the
propID rank remap is never followed by a sort before
`drop_duplicates(keep='first')`, so when the deep-drilling row precedes
the wide-fast-deep row, the deep-drilling record is the one kept. -/
theorem C1_dedup_keeps_first_seen_record :
    dropDuplicates [rowDDF, rowWFD] dictC1 "lsstv3" = .ok [rowDDF]
    ∧ dropDuplicates [rowWFD, rowDDF] dictC1 "lsstv3" = .ok [rowWFD] :=
  ⟨rfl, rfl⟩

/-- Claim C4 counterexample: for subset `_all` on an sstf-convention
proposal table (ID column named `propId`), `propIDVals` does not return
the proposal IDs present in the records — the hard-coded attribute access
`proposalTable.propID` fails. -/
theorem C4_counterexample_all_attribute_error :
    propIDVals (some "_all") []
        (some ⟨"propName", "propId", [⟨"WideFastDeep", 1⟩]⟩)
      = .error "AttributeError: DataFrame has no attribute propID" :=
  rfl

/-- Claim C4 (amended): `propIDVals` returns the singleton of the role
entry for `wfd`/`ddf` (KeyError when absent), the ddf and wfd entries for
`combined`, and for `_all`/`unique_all` the values of the table's `propID`
column — which exists only under the lsstv3 naming convention; for a table
whose ID column is named otherwise the branch fails, and with no table it
returns python `None`.  A `None` subset fails, and so does any
unrecognized subset name. -/
theorem C4_propIDVals_characterization :
    (∀ d t, (propIDVals none d t).isOk = false)
    ∧ (∀ d t i, dictGet d "wfd" = some i →
        propIDVals (some "wfd") d t = .ok (some [i]))
    ∧ (∀ d t, dictGet d "wfd" = none → (propIDVals (some "wfd") d t).isOk = false)
    ∧ (∀ d t i, dictGet d "ddf" = some i →
        propIDVals (some "ddf") d t = .ok (some [i]))
    ∧ (∀ d t, dictGet d "ddf" = none → (propIDVals (some "ddf") d t).isOk = false)
    ∧ (∀ d t i j, dictGet d "ddf" = some i → dictGet d "wfd" = some j →
        propIDVals (some "combined") d t = .ok (some [i, j]))
    ∧ (∀ d t, t.idCol = "propID" →
        propIDVals (some "_all") d (some t) = .ok (some (t.rows.map ProposalRow.id))
        ∧ propIDVals (some "unique_all") d (some t) = .ok (some (t.rows.map ProposalRow.id)))
    ∧ (∀ d t, t.idCol ≠ "propID" → (propIDVals (some "_all") d (some t)).isOk = false)
    ∧ (∀ d, propIDVals (some "_all") d none = .ok none)
    ∧ (∀ d t s, strLower s ∉ get_allowed_subsets →
        (propIDVals (some s) d t).isOk = false) := by
  refine ⟨?_, ?_, ?_, ?_, ?_, ?_, ?_, ?_, ?_, ?_⟩
  · intro d t; rfl
  · intro d t i hw
    show (match dictGet d "wfd" with
          | some a => (Except.ok (some [a]) : Except String (Option (List Int)))
          | none => Except.error "KeyError: role absent from propIDDict")
        = Except.ok (some [i])
    rw [hw]
  · intro d t hw
    show (match dictGet d "wfd" with
          | some a => (Except.ok (some [a]) : Except String (Option (List Int)))
          | none => Except.error "KeyError: role absent from propIDDict").isOk
        = false
    rw [hw]; rfl
  · intro d t i hd
    show (match dictGet d "ddf" with
          | some a => (Except.ok (some [a]) : Except String (Option (List Int)))
          | none => Except.error "KeyError: role absent from propIDDict")
        = Except.ok (some [i])
    rw [hd]
  · intro d t hd
    show (match dictGet d "ddf" with
          | some a => (Except.ok (some [a]) : Except String (Option (List Int)))
          | none => Except.error "KeyError: role absent from propIDDict").isOk
        = false
    rw [hd]; rfl
  · intro d t i j hd hw
    show (match dictGet d "ddf" with
          | none =>
            (Except.error "KeyError: role absent from propIDDict"
              : Except String (Option (List Int)))
          | some a =>
            match dictGet d "wfd" with
            | none => Except.error "KeyError: role absent from propIDDict"
            | some b => Except.ok (some [a, b]))
        = Except.ok (some [i, j])
    rw [hd]
    show (match dictGet d "wfd" with
          | none =>
            (Except.error "KeyError: role absent from propIDDict"
              : Except String (Option (List Int)))
          | some b => Except.ok (some [i, b]))
        = Except.ok (some [i, j])
    rw [hw]
  · intro d t hid
    constructor
    · show (if t.idCol = "propID" then
              (Except.ok (some (t.rows.map ProposalRow.id))
                : Except String (Option (List Int)))
            else Except.error "AttributeError: DataFrame has no attribute propID")
          = Except.ok (some (t.rows.map ProposalRow.id))
      rw [if_pos hid]
    · show (if t.idCol = "propID" then
              (Except.ok (some (t.rows.map ProposalRow.id))
                : Except String (Option (List Int)))
            else Except.error "AttributeError: DataFrame has no attribute propID")
          = Except.ok (some (t.rows.map ProposalRow.id))
      rw [if_pos hid]
  · intro d t hid
    show (if t.idCol = "propID" then
            (Except.ok (some (t.rows.map ProposalRow.id))
              : Except String (Option (List Int)))
          else Except.error "AttributeError: DataFrame has no attribute propID").isOk
        = false
    rw [if_neg hid]
    rfl
  · intro d; rfl
  · intro d t s hs
    simp only [get_allowed_subsets, List.mem_cons, List.not_mem_nil, or_false,
      not_or] at hs
    obtain ⟨h1, h2, h3, h4, h5⟩ := hs
    show (if strLower s = "ddf" ∨ strLower s = "wfd" then
            (match dictGet d (strLower s) with
             | some a => (Except.ok (some [a]) : Except String (Option (List Int)))
             | none => Except.error "KeyError: role absent from propIDDict")
          else
            if strLower s = "combined" then
              match dictGet d "ddf" with
              | none => Except.error "KeyError: role absent from propIDDict"
              | some a =>
                match dictGet d "wfd" with
                | none => Except.error "KeyError: role absent from propIDDict"
                | some b => Except.ok (some [a, b])
            else
              if strLower s = "_all" ∨ strLower s = "unique_all" then
                match t with
                | some t0 =>
                  if t0.idCol = "propID" then
                    Except.ok (some (t0.rows.map ProposalRow.id))
                  else Except.error "AttributeError: DataFrame has no attribute propID"
                | none => Except.ok none
              else
                Except.error "NotImplementedError: value of subset Not recognized").isOk
        = false
    rw [if_neg (not_or.mpr ⟨h2, h3⟩), if_neg h4, if_neg (not_or.mpr ⟨h1, h5⟩)]
    rfl

/-- Claim C4 witness: the characterization applied at concrete inputs. -/
theorem C4_propIDVals_characterization_witness :
    propIDVals (some "wfd") [("wfd", 3)] none = .ok (some [3])
    ∧ propIDVals (some "combined") [("ddf", 7), ("wfd", 3)] none = .ok (some [7, 3])
    ∧ (propIDVals (some "nonsense") [] none).isOk = false :=
  ⟨C4_propIDVals_characterization.2.1 [("wfd", 3)] none 3 rfl,
   C4_propIDVals_characterization.2.2.2.2.2.1 [("ddf", 7), ("wfd", 3)] none 7 3 rfl rfl,
   C4_propIDVals_characterization.2.2.2.2.2.2.2.2.2 [] none "nonsense" (by decide)⟩

/-- Claim C5 counterexample: two proposal records both matching the
wide-fast-deep literal (IDs 1 and 9) yield a role map binding `wfd` to 9
alone — the `dict(...)` conversion keeps only the last matching record's
ID, not all of them. -/
theorem C5_counterexample_last_match_wins :
    get_propIDDict ⟨"propConf", "propID",
        [⟨"conf/survey/Universal-18-0824B.conf", 1⟩,
         ⟨"conf/survey/Universal-18-0824B.conf", 9⟩]⟩ "lsstv3"
      = .ok [("wfd", 9)] :=
  rfl

/-- Claim C5 (amended): `get_propIDDict` relabels each record whose name
contains the version's wfd (first) or ddf literal and converts the
(relabelled name, id) pairs to a dict, so each role maps to the ID of the
LAST matching record (later bindings overwrite earlier ones); a role with
zero matches is simply absent from the dict, which is not an error. -/
theorem C5_get_propIDDict_relabel_last_binding :
    (∀ t : ProposalTable, t.nameCol = "propConf" → t.idCol = "propID" →
        get_propIDDict t "lsstv3"
          = .ok (dictOfPairs (t.rows.map (fun r =>
              (relabelName "conf/survey/Universal-18-0824B.conf"
                "conf/survey/DDcosmology1.conf" r.name, r.id)))))
    ∧ (∀ ps k, dictGet (dictOfPairs ps) k = lastVal ps k)
    ∧ (∀ ps k, lastVal ps k = none ↔ ∀ kv ∈ ps, kv.1 ≠ k) := by
  refine ⟨?_, dictGet_dictOfPairs, lastVal_eq_none_iff⟩
  intro t h1 h2
  show (if t.nameCol = "propConf" ∧ t.idCol = "propID" then
          Except.ok (dictOfPairs (t.rows.map (fun r =>
            (relabelName "conf/survey/Universal-18-0824B.conf"
              "conf/survey/DDcosmology1.conf" r.name, r.id))))
        else Except.error "KeyError: proposal table does not have the version columns")
      = Except.ok (dictOfPairs (t.rows.map (fun r =>
          (relabelName "conf/survey/Universal-18-0824B.conf"
            "conf/survey/DDcosmology1.conf" r.name, r.id))))
  rw [if_pos ⟨h1, h2⟩]

/-- Claim C5 witness: the amended statement applied to a concrete table
with one wfd record, one ddf record and one unmatched record. -/
theorem C5_get_propIDDict_relabel_last_binding_witness :
    get_propIDDict ⟨"propConf", "propID",
        [⟨"conf/survey/Universal-18-0824B.conf", 4⟩,
         ⟨"conf/survey/DDcosmology1.conf", 8⟩, ⟨"other", 12⟩]⟩ "lsstv3"
      = .ok (dictOfPairs
          ([⟨"conf/survey/Universal-18-0824B.conf", (4 : Int)⟩,
            ⟨"conf/survey/DDcosmology1.conf", 8⟩,
            (⟨"other", 12⟩ : ProposalRow)].map (fun r =>
            (relabelName "conf/survey/Universal-18-0824B.conf"
              "conf/survey/DDcosmology1.conf" r.name, r.id))))
    ∧ dictGet (dictOfPairs [("wfd", 4), ("ddf", 8), ("other", 12)]) "wfd"
        = lastVal [("wfd", 4), ("ddf", 8), ("other", 12)] "wfd" :=
  ⟨C5_get_propIDDict_relabel_last_binding.1 _ rfl rfl,
   C5_get_propIDDict_relabel_last_binding.2.1 _ "wfd"⟩

/-- Claim C9 counterexample: explicit propIDs `[1]` and derived propIDs
`[2, 3]` disagree as unordered sets, yet the override emits no diagnostic
of any kind and silently returns the explicit IDs. -/
theorem C9_counterexample_silent_mismatch :
    overrideSubsetPropID (some [1]) (some [2, 3]) = .ok (some [1]) :=
  rfl

/-- Claim C9 (amended): the explicit ID set always overrides the derived
one, and the mismatch guard never fires: it compares the return values of
two in-place `ndarray.sort()` calls, which are both `None`, so no
diagnostic is ever emitted and construction proceeds with the explicit IDs
(had the guard fired, it would have raised an exception, not a
warning-level signal). -/
theorem C9_override_always_silent :
    (∀ ps u, overrideSubsetPropID (some ps) u = .ok (some ps))
    ∧ (∀ u, overrideSubsetPropID none u = .ok u) := by
  constructor
  · intro ps u
    show (if npSortResult (some ps) ≠ npSortResult u then
            (Except.error "Warning: argument propIDs and _propIDs do not match"
              : Except String (Option (List Int)))
          else Except.ok (some ps))
        = Except.ok (some ps)
    rw [if_neg (fun hne : npSortResult (some ps) ≠ npSortResult u => hne rfl)]
  · intro u; rfl

/-- Claim C10: for every version other than `sstf`, `dropDuplicates` reads
both the `ddf` and the `wfd` role entries before deduplicating, so it
fails whenever either is absent — whatever the input rows are — and
succeeds whenever both are present; for `sstf` it returns its input
unchanged and never fails. -/
theorem C10_dropDuplicates_unconditional_role_lookups :
    (∀ df d v, v ≠ "sstf" →
        (dictGet d "ddf" = none ∨ dictGet d "wfd" = none) →
        (dropDuplicates df d v).isOk = false)
    ∧ (∀ df d v i j, v ≠ "sstf" → dictGet d "ddf" = some i →
        dictGet d "wfd" = some j → (dropDuplicates df d v).isOk = true)
    ∧ (∀ df d, dropDuplicates df d "sstf" = .ok df) := by
  refine ⟨?_, ?_, ?_⟩
  · intro df d v hv habs
    unfold dropDuplicates
    rw [if_neg hv]
    split
    · rfl
    next ddfID heqd =>
      split
      · rfl
      next wfdID heqw =>
        rcases habs with habs | habs
        · rw [habs] at heqd; exact (Option.noConfusion heqd)
        · rw [habs] at heqw; exact (Option.noConfusion heqw)
  · intro df d v i j hv hd hw
    unfold dropDuplicates
    rw [if_neg hv]
    split
    · next heqd => rw [hd] at heqd; exact (Option.noConfusion heqd)
    next ddfID heqd =>
      split
      · next heqw => rw [hw] at heqw; exact (Option.noConfusion heqw)
      next wfdID heqw => rfl
  · intro df d
    unfold dropDuplicates
    rw [if_pos rfl]

/-- Claim C10 witness: the three parts applied at concrete inputs. -/
theorem C10_dropDuplicates_unconditional_role_lookups_witness :
    (dropDuplicates [rowWFD] [("wfd", 1)] "lsstv4").isOk = false
    ∧ (dropDuplicates [] [("wfd", 1)] "lsstv4").isOk = false
    ∧ (dropDuplicates [rowWFD] [("ddf", 2), ("wfd", 1)] "lsstv4").isOk = true
    ∧ dropDuplicates [rowDDF, rowWFD] [] "sstf" = .ok [rowDDF, rowWFD] :=
  ⟨C10_dropDuplicates_unconditional_role_lookups.1 [rowWFD] [("wfd", 1)] "lsstv4"
      (by decide) (Or.inl rfl),
   C10_dropDuplicates_unconditional_role_lookups.1 [] [("wfd", 1)] "lsstv4"
      (by decide) (Or.inl rfl),
   C10_dropDuplicates_unconditional_role_lookups.2.1 [rowWFD]
      [("ddf", 2), ("wfd", 1)] "lsstv4" 2 1 (by decide) rfl rfl,
   C10_dropDuplicates_unconditional_role_lookups.2.2 [rowDDF, rowWFD] []⟩

/-! Fixtures for the construction-level claims: an sstf run whose summary
table logs one pointing under both proposals, and lsstv3 runs with a
single pointing. -/

def ptSstfA : ProposalTable :=
  ⟨"propName", "propId", [⟨"WideFastDeep", 1⟩, ⟨"Deep Drilling", 2⟩]⟩

def stSstfA : List SummaryRow :=
  [⟨100, 1, 30, 40, 0, 0, 10, 1, 1⟩, ⟨100, 2, 30, 40, 0, 0, 20, 1, 1⟩]

def ptSstfB : ProposalTable :=
  ⟨"propName", "propId", [⟨"WideFastDeep", 1⟩, ⟨"Deep Drilling", 2⟩]⟩

def stSstfB : List SummaryRow :=
  [⟨55, 1, 3, 4, 0, 0, 1, 1, 1⟩, ⟨55, 2, 3, 4, 0, 0, 2, 1, 1⟩]

def ptSstfC : ProposalTable :=
  ⟨"propName", "propId", [⟨"WideFastDeep", 1⟩, ⟨"Deep Drilling", 2⟩]⟩

def stSstfC : List SummaryRow :=
  [⟨77, 1, 3, 4, 0, 0, 1, 1, 1⟩, ⟨77, 2, 3, 4, 0, 0, 2, 1, 1⟩]

def ptV3A : ProposalTable :=
  ⟨"propConf", "propID",
   [⟨"conf/survey/Universal-18-0824B.conf", 1⟩, ⟨"conf/survey/DDcosmology1.conf", 2⟩]⟩

def stV3A : List SummaryRow := [⟨100, 1, 30, 40, 0, 0, 10, 1, 1⟩]

def ptV3B : ProposalTable :=
  ⟨"propConf", "propID",
   [⟨"conf/survey/Universal-18-0824B.conf", 1⟩, ⟨"conf/survey/DDcosmology1.conf", 2⟩]⟩

def rowV3B : SummaryRow := ⟨200, 1, 30, 40, 0, 0, 10, 1, 1⟩

def stV3B : List SummaryRow := [rowV3B]

/-- The role map produced for the lsstv3 proposal tables above. -/
def dV3B : List (String × Int) := [("wfd", 1), ("ddf", 2)]

/-- Claim C2 counterexample: an sstf (streamlined) construction for subset
`combined` with one pointing ID logged under both proposals succeeds and
keeps BOTH records — `dropDuplicates` is a passthrough for sstf, so the
pointing ID 100 appears twice in the catalog. -/
theorem C2_counterexample_streamlined_duplicates :
    (fromOpSimDB stSstfA ptSstfA "combined" none true "sstf").isOk = true
    ∧ resultIDs (fromOpSimDB stSstfA ptSstfA "combined" none true "sstf")
        = [100, 100]
    ∧ ¬ ([100, 100] : List Int).Nodup :=
  ⟨rfl, rfl, by decide⟩

/-- Claim C2 (amended): for versions `lsstv3` and `lsstv4` — every version
except streamlined, whose dedup is a passthrough — any successful
construction with a subset other than `_all` yields pairwise distinct
pointing IDs, across proposals. -/
theorem C2_unique_ids_for_non_streamlined (st : List SummaryRow)
    (pt : ProposalTable) (subset : String) (pids : Option (List Int))
    (z : Bool) (v : String) (out : OpSimOutput)
    (hv : v = "lsstv3" ∨ v = "lsstv4") (hsub : strLower subset ≠ "_all")
    (h : fromOpSimDB st pt subset pids z v = .ok out) :
    (out.summary.map (fun r => r.base.obsHistID)).Nodup := by
  obtain ⟨s1, d, hrec, hinit⟩ := fromOpSimDB_ok_records st pt subset pids z v out h
  obtain ⟨s0, hdrop⟩ := fromOpSimDBRecords_ok_dedup st pt subset pids v s1 d hsub hrec
  have hvne : v ≠ "sstf" := by rcases hv with hv | hv <;> subst hv <;> decide
  have hnodup := dropDuplicates_ok_nodup s0 d v hvne s1 hdrop
  have hids := opSimInit_ok_ids s1 (some d) (some pt) (some (strLower subset))
    none z v out hinit
  rw [hids]
  exact hnodup

/-- Claim C2 witness: the amended statement discharged on a concrete
lsstv3 construction. -/
theorem C2_unique_ids_for_non_streamlined_witness :
    (resultIDs (fromOpSimDB stV3A ptV3A "combined" none false "lsstv3")).Nodup := by
  cases hout : fromOpSimDB stV3A ptV3A "combined" none false "lsstv3" with
  | error e =>
    have hok : (fromOpSimDB stV3A ptV3A "combined" none false "lsstv3").isOk = true := rfl
    rw [hout] at hok
    exact (Bool.noConfusion hok)
  | ok out =>
    have h := C2_unique_ids_for_non_streamlined stV3A ptV3A "combined" none false
      "lsstv3" out (Or.inl rfl) (by decide) hout
    exact h

/-- Claim C8 counterexample: a construction whose post-dedup records still
carry a duplicated pointing ID (sstf passthrough) succeeds — construction
does not fail, with `DuplicatePointingID` or anything else, when pointing
IDs are not unique after dedup, because `set_index` performs no
uniqueness check. -/
theorem C8_counterexample_duplicates_survive_indexing :
    (fromOpSimDB stSstfB ptSstfB "combined" none true "sstf").isOk = true
    ∧ ¬ (resultIDs (fromOpSimDB stSstfB ptSstfB "combined" none true "sstf")).Nodup := by
  refine ⟨rfl, ?_⟩
  rw [show resultIDs (fromOpSimDB stSstfB ptSstfB "combined" none true "sstf")
      = [55, 55] from rfl]
  decide

/-- Claim C8 (amended): after dedup the record set is indexed by pointing
ID with NO uniqueness verification: every successful construction carries
exactly the post-dedup rows into the catalog, whatever their pointing IDs,
and a streamlined construction with a post-dedup duplicate completes with
the duplicate intact. -/
theorem C8_index_step_has_no_uniqueness_check :
    (∀ st pt subset pids z v s1 d out,
        fromOpSimDBRecords st pt subset pids v = .ok (s1, d) →
        fromOpSimDB st pt subset pids z v = .ok out →
        out.summary.map (fun r => r.base.obsHistID) = s1.map SummaryRow.obsHistID)
    ∧ resultIDs (fromOpSimDB stSstfC ptSstfC "combined" none true "sstf") = [77, 77] := by
  constructor
  · intro st pt subset pids z v s1 d out h1 h2
    unfold fromOpSimDB at h2
    rw [h1] at h2
    exact opSimInit_ok_ids s1 (some d) (some pt) (some (strLower subset)) none z v out h2
  · rfl

/-- Claim C8 witness: the no-check pass-through applied to a concrete
lsstv3 construction. -/
theorem C8_index_step_has_no_uniqueness_check_witness :
    resultIDs (fromOpSimDB stV3B ptV3B "combined" none false "lsstv3")
      = [rowV3B].map SummaryRow.obsHistID := by
  cases hout : fromOpSimDB stV3B ptV3B "combined" none false "lsstv3" with
  | error e =>
    have hok : (fromOpSimDB stV3B ptV3B "combined" none false "lsstv3").isOk = true := rfl
    rw [hout] at hok
    exact (Bool.noConfusion hok)
  | ok out =>
    have h := C8_index_step_has_no_uniqueness_check.1 stV3B ptV3B "combined" none
      false "lsstv3" [rowV3B] dV3B out rfl hout
    exact h

/-! Fixtures for the persistence and construction claims. -/

def ptEmpty : ProposalTable := ⟨"propConf", "propID", []⟩

/-- A catalog built with subset `_all`, eligible for persistence. -/
def oAll : OpSimOutput :=
  ⟨"lsstv3", none, some ptEmpty, [], some "_all", none, false, false⟩

def hdfAll : HDFFile := ⟨[], ptEmpty⟩

/-- A deep-drilling pointing whose dithered and field-center coordinates
differ. -/
def rowC7 : SummaryRow := ⟨300, 2, 50, 60, 70, 80, 5, 1, 1⟩

/-- Claim C3: the spec says persist-then-reconstruct is the identity on a
subset-`_all` catalog.  Persisting such a catalog succeeds, but
`fromOpSimHDF` raises `NotImplementedError` as its first statement, so no
reconstruction from the persisted form can ever succeed: the round trip is
impossible, not the identity. -/
theorem C3_persist_then_reconstruct_never_succeeds :
    (∀ o : OpSimOutput, o.subset = some "_all" → o.proposalTable.isSome = true →
        (writeOpSimHDF o).isOk = true)
    ∧ (∀ (o : OpSimOutput) (hdf : HDFFile) (s : String) (p : Option (List Int)),
        writeOpSimHDF o = .ok hdf → (fromOpSimHDF hdf s p).isOk = false) := by
  constructor
  · intro o hsub hpt
    unfold writeOpSimHDF
    rw [if_neg (fun hne : o.subset ≠ some "_all" => hne hsub)]
    cases hp : o.proposalTable with
    | none => rw [hp] at hpt; exact (Bool.noConfusion hpt)
    | some pt => rfl
  · intro o hdf s p hw
    rfl

/-- Claim C3 witness: the two parts discharged on a concrete catalog. -/
theorem C3_persist_then_reconstruct_never_succeeds_witness :
    (writeOpSimHDF oAll).isOk = true
    ∧ writeOpSimHDF oAll = .ok hdfAll
    ∧ (fromOpSimHDF hdfAll "combined" none).isOk = false :=
  ⟨C3_persist_then_reconstruct_never_succeeds.1 oAll rfl rfl, rfl,
   C3_persist_then_reconstruct_never_succeeds.2 oAll hdfAll "combined" none rfl⟩

/-- Claim C6: construction converts the dithered coordinates to radians
when the version's angle unit is `degrees` (raw 180 degrees becomes pi),
copies them unchanged when it is `radians`, and the conversion step fails
for any other angle-unit value. -/
theorem C6_canonical_angle_units :
    varsAngleUnits "lsstv4" = some "degrees"
    ∧ (∀ (s : List SummaryRow) d t sub p zb,
        opSimInit s d t sub p zb "lsstv4"
          = .ok { opsimversion := "lsstv4", propIDDict := d, proposalTable := t,
                  summary := s.map (fun r =>
                    ⟨r, np_radians r.ditheredRA, np_radians r.ditheredDec⟩),
                  subset := sub, propIDs := p,
                  ddfDithersZeroed := false, zeroDowngradeNotice := true })
    ∧ np_radians 180 = Real.pi
    ∧ varsAngleUnits "lsstv3" = some "radians"
    ∧ (∀ (s : List SummaryRow) d t sub p,
        opSimInit s d t sub p false "lsstv3"
          = .ok { opsimversion := "lsstv3", propIDDict := d, proposalTable := t,
                  summary := s.map (fun r =>
                    ⟨r, (r.ditheredRA : ℝ), (r.ditheredDec : ℝ)⟩),
                  subset := sub, propIDs := p,
                  ddfDithersZeroed := false, zeroDowngradeNotice := false })
    ∧ (∀ u, u ≠ "degrees" → u ≠ "radians" → ∀ a b,
        canonicalAngles u a b
          = .error "ValueError: angle unit of ra and dec Columns not recognized") := by
  refine ⟨rfl, ?_, ?_, rfl, ?_, ?_⟩
  · intro s d t sub p zb
    show (match convertRows "degrees" s with
          | .error e => (.error e : Except String OpSimOutput)
          | .ok outRows =>
            .ok { opsimversion := "lsstv4", propIDDict := d, proposalTable := t,
                  summary := outRows, subset := sub, propIDs := p,
                  ddfDithersZeroed := false, zeroDowngradeNotice := true })
        = _
    rw [convertRows_degrees s]
  · show ((180 : ℚ) : ℝ) * Real.pi / 180 = Real.pi
    push_cast
    ring
  · intro s d t sub p
    show (match convertRows "radians" s with
          | .error e => (.error e : Except String OpSimOutput)
          | .ok outRows =>
            .ok { opsimversion := "lsstv3", propIDDict := d, proposalTable := t,
                  summary := outRows, subset := sub, propIDs := p,
                  ddfDithersZeroed := false, zeroDowngradeNotice := false })
        = _
    rw [convertRows_radians s]
  · intro u h1 h2 a b
    unfold canonicalAngles
    rw [if_neg h1, if_neg h2]

/-- Claim C6 witness: a degrees-version construction at a concrete row and
the failure branch at a concrete unrecognized unit. -/
theorem C6_canonical_angle_units_witness :
    opSimInit [rowWFD] none none none none true "lsstv4"
      = .ok { opsimversion := "lsstv4", propIDDict := none, proposalTable := none,
              summary := [rowWFD].map (fun r =>
                ⟨r, np_radians r.ditheredRA, np_radians r.ditheredDec⟩),
              subset := none, propIDs := none,
              ddfDithersZeroed := false, zeroDowngradeNotice := true }
    ∧ canonicalAngles "arcseconds" 1 2
        = .error "ValueError: angle unit of ra and dec Columns not recognized" :=
  ⟨C6_canonical_angle_units.2.1 [rowWFD] none none none none true,
   C6_canonical_angle_units.2.2.2.2.2 "arcseconds" (by decide) (by decide) 1 2⟩

/-- Claim C7: for lsstv3 with dither-zeroing requested, every record whose
propID equals the ddf role entry has its dithered coordinates overwritten
with the field-center ones before unit normalization, so its canonical
coordinates are the field-center values; for versions sstf and lsstv4 the
flag is downgraded to false with a printed notice, construction proceeds,
and the dithered coordinates are left untouched. -/
theorem C7_ddf_dither_zeroing :
    (∀ (s : List SummaryRow) (d : List (String × Int)) t sub p (i : Int),
        dictGet d "ddf" = some i →
        opSimInit s (some d) t sub p true "lsstv3"
          = .ok { opsimversion := "lsstv3", propIDDict := some d, proposalTable := t,
                  summary := s.map (fun r =>
                    if r.propID = i then
                      ⟨{ r with ditheredRA := r.fieldRA, ditheredDec := r.fieldDec },
                       (r.fieldRA : ℝ), (r.fieldDec : ℝ)⟩
                    else ⟨r, (r.ditheredRA : ℝ), (r.ditheredDec : ℝ)⟩),
                  subset := sub, propIDs := p,
                  ddfDithersZeroed := true, zeroDowngradeNotice := false })
    ∧ (∀ (s : List SummaryRow) d t sub p (v : String), (v = "sstf" ∨ v = "lsstv4") →
        (opSimInit s d t sub p true v).isOk = true
        ∧ initDithersZeroed (opSimInit s d t sub p true v) = some false
        ∧ initNotice (opSimInit s d t sub p true v) = some true
        ∧ (initSummary (opSimInit s d t sub p true v)).map OutRow.base = s) := by
  constructor
  · intro s d t sub p i hd
    show (match zeroDDFStep s (some d) true with
          | .error e => (.error e : Except String OpSimOutput)
          | .ok summary1 =>
            match convertRows "radians" summary1 with
            | .error e => .error e
            | .ok outRows =>
              .ok { opsimversion := "lsstv3", propIDDict := some d, proposalTable := t,
                    summary := outRows, subset := sub, propIDs := p,
                    ddfDithersZeroed := true, zeroDowngradeNotice := false })
        = _
    have hstep : zeroDDFStep s (some d) true
        = (match dictGet d "ddf" with
           | none => (.error "KeyError: ddf" : Except String (List SummaryRow))
           | some ddfPropID =>
             .ok (s.map (fun r =>
               if r.propID = ddfPropID then
                 { r with ditheredRA := r.fieldRA, ditheredDec := r.fieldDec }
               else r))) := rfl
    rw [hstep, hd]
    show (match convertRows "radians" (s.map (fun r =>
            if r.propID = i then
              { r with ditheredRA := r.fieldRA, ditheredDec := r.fieldDec }
            else r)) with
          | .error e => (.error e : Except String OpSimOutput)
          | .ok outRows =>
            .ok { opsimversion := "lsstv3", propIDDict := some d, proposalTable := t,
                  summary := outRows, subset := sub, propIDs := p,
                  ddfDithersZeroed := true, zeroDowngradeNotice := false })
        = _
    rw [convertRows_radians]
    have hmaps : (s.map (fun r =>
          if r.propID = i then
            { r with ditheredRA := r.fieldRA, ditheredDec := r.fieldDec }
          else r)).map (fun r => (⟨r, (r.ditheredRA : ℝ), (r.ditheredDec : ℝ)⟩ : OutRow))
        = s.map (fun r =>
            if r.propID = i then
              (⟨{ r with ditheredRA := r.fieldRA, ditheredDec := r.fieldDec },
                (r.fieldRA : ℝ), (r.fieldDec : ℝ)⟩ : OutRow)
            else ⟨r, (r.ditheredRA : ℝ), (r.ditheredDec : ℝ)⟩) := by
      rw [List.map_map]
      refine List.map_congr_left ?_
      intro r _
      by_cases hr : r.propID = i <;>
        simp only [Function.comp, hr, if_true, if_false, ite_true, ite_false]
    rw [hmaps]
  · intro s d t sub p v hv
    rcases hv with hv | hv <;> subst hv
    · have hv0 : opSimInit s d t sub p true "sstf"
          = .ok { opsimversion := "sstf", propIDDict := d, proposalTable := t,
                  summary := s.map (fun r =>
                    ⟨r, np_radians r.ditheredRA, np_radians r.ditheredDec⟩),
                  subset := sub, propIDs := p,
                  ddfDithersZeroed := false, zeroDowngradeNotice := true } := by
        show (match convertRows "degrees" s with
              | .error e => (.error e : Except String OpSimOutput)
              | .ok outRows =>
                .ok { opsimversion := "sstf", propIDDict := d, proposalTable := t,
                      summary := outRows, subset := sub, propIDs := p,
                      ddfDithersZeroed := false, zeroDowngradeNotice := true })
            = _
        rw [convertRows_degrees s]
      refine ⟨by rw [hv0]; rfl, by rw [hv0]; rfl, by rw [hv0]; rfl, ?_⟩
      rw [hv0]
      show ((s.map (fun r =>
          ⟨r, np_radians r.ditheredRA, np_radians r.ditheredDec⟩)).map OutRow.base) = s
      exact convertRows_ok_base "degrees" s _ (convertRows_degrees s)
    · have hv0 : opSimInit s d t sub p true "lsstv4"
          = .ok { opsimversion := "lsstv4", propIDDict := d, proposalTable := t,
                  summary := s.map (fun r =>
                    ⟨r, np_radians r.ditheredRA, np_radians r.ditheredDec⟩),
                  subset := sub, propIDs := p,
                  ddfDithersZeroed := false, zeroDowngradeNotice := true } := by
        show (match convertRows "degrees" s with
              | .error e => (.error e : Except String OpSimOutput)
              | .ok outRows =>
                .ok { opsimversion := "lsstv4", propIDDict := d, proposalTable := t,
                      summary := outRows, subset := sub, propIDs := p,
                      ddfDithersZeroed := false, zeroDowngradeNotice := true })
            = _
        rw [convertRows_degrees s]
      refine ⟨by rw [hv0]; rfl, by rw [hv0]; rfl, by rw [hv0]; rfl, ?_⟩
      rw [hv0]
      show ((s.map (fun r =>
          ⟨r, np_radians r.ditheredRA, np_radians r.ditheredDec⟩)).map OutRow.base) = s
      exact convertRows_ok_base "degrees" s _ (convertRows_degrees s)

/-- Claim C7 witness: zeroing applied to a concrete deep-drilling record
with differing dithered and field-center coordinates, and the downgrade
branch at a concrete sstf construction. -/
theorem C7_ddf_dither_zeroing_witness :
    opSimInit [rowC7] (some [("ddf", 2)]) none none none true "lsstv3"
      = .ok { opsimversion := "lsstv3", propIDDict := some [("ddf", 2)],
              proposalTable := none,
              summary := [rowC7].map (fun r =>
                if r.propID = 2 then
                  ⟨{ r with ditheredRA := r.fieldRA, ditheredDec := r.fieldDec },
                   (r.fieldRA : ℝ), (r.fieldDec : ℝ)⟩
                else ⟨r, (r.ditheredRA : ℝ), (r.ditheredDec : ℝ)⟩),
              subset := none, propIDs := none,
              ddfDithersZeroed := true, zeroDowngradeNotice := false }
    ∧ initDithersZeroed (opSimInit [rowC7] none none none none true "sstf") = some false
    ∧ initNotice (opSimInit [rowC7] none none none none true "sstf") = some true :=
  ⟨C7_ddf_dither_zeroing.1 [rowC7] [("ddf", 2)] none none none 2 rfl,
   (C7_ddf_dither_zeroing.2 [rowC7] none none none none "sstf" (Or.inl rfl)).2.1,
   (C7_ddf_dither_zeroing.2 [rowC7] none none none none "sstf" (Or.inl rfl)).2.2.1⟩

end OpSim
